import Mathlib

set_option maxRecDepth 100000

/-!
Verification model of the fbxmetrics repository.

The repository is a small Python probe that discovers a Freebox router on
the local network through mDNS, registers an application against its HTTP
API and is meant to collect metrics and push them to a Prometheus push
gateway.  The definitions below are a shallow embedding of the Python
sources (src/freebox.py, src/fbx.py, src/fbxmetrics.py, src/freeerrors.py,
src/freeprobe.py): Python dictionaries become association lists with
first-match lookup and prepend assignment, exceptions become error results,
and side effects (HTTP requests, file writes, zeroconf open/close) become
explicit effect traces.  The session sub-protocol (HMAC-SHA1 password) has
no code in the repository at all and is modelled from the specification.

The file is laid out as definitions first, theorems second.
-/

namespace Fbxmetrics

/-- A Python value as stored in the Freebox `_properties` dict: the dict is
heterogeneous (TXT values and the service name are strings, the port is an
integer). -/
inductive PyVal where
  | str (s : String)
  | int (n : Nat)
deriving DecidableEq, Repr

/-- A Python dict, embedded as an association list.  Assignment prepends,
lookup takes the first match, so a later assignment shadows an earlier one
exactly as a Python dict overwrite does. -/
abbrev PyDict := List (String × PyVal)

/-- Python `d[k]` for reading: `some` the first matching value, `none` when
the key is absent (a Python `KeyError`). -/
def dlookup (d : PyDict) (k : String) : Option PyVal :=
  match d with
  | [] => none
  | (k2, v) :: rest => if k2 = k then some v else dlookup rest k

/-- Python `d[k] = v`. -/
def dset (d : PyDict) (k : String) (v : PyVal) : PyDict := (k, v) :: d

/-- Embeds the Python expression `v.split(".")[0]`: the prefix of `v`
before the first period (the whole string when `v` has no period, which is
what the `split` of Python returns in that case). -/
def pyMajor (v : String) : String :=
  String.mk (v.data.takeWhile (fun c => c != '.'))

/-- Embeds `Freebox._full_api_url` (src/freebox.py lines 123-140; the copy
in src/fbx.py lines 88-105 is textually identical):

    url = ("https://" + self.properties["api_domain"]
           + self.properties["api_base_url"]
           + "v" + self.properties["api_version"].split(".")[0]
           + api_url)

A missing key raises `KeyError` and a non-string value would raise
`TypeError` on concatenation; both failure modes are `none` here. -/
def full_api_url (props : PyDict) (api_url : String) : Option String :=
  match dlookup props "api_domain",
        dlookup props "api_base_url",
        dlookup props "api_version" with
  | some (.str d), some (.str b), some (.str v) =>
      some ("https://" ++ d ++ b ++ "v" ++ pyMajor v ++ api_url)
  | _, _, _ => none

/-- A resolved zeroconf service record as consumed by
`MDNSListener.add_service` (src/freebox.py lines 80-98): `info.name`,
`info.type`, `info.server`, `info.port`, the four raw address octets
`info.address[0..3]`, and the TXT key/value pairs of `info.properties`
(already UTF-8 decoded: the Python code decodes each key and value with
`.decode()`, which on the byte strings of the record yields exactly these
strings). -/
structure ServiceInfo where
  name : String
  type : String
  server : String
  port : Nat
  addr0 : Nat
  addr1 : Nat
  addr2 : Nat
  addr3 : Nat
  txt : List (String × String)
deriving DecidableEq, Repr

/-- The loop `for key, value in info.properties.items(): ...` at
src/freebox.py lines 97-98, storing each decoded TXT pair in the parent
Freebox properties dict. -/
def txtFold (txt : List (String × String)) (props : PyDict) : PyDict :=
  txt.foldl (fun ps kv => dset ps kv.1 (.str kv.2)) props

/-- Embeds `MDNSListener.add_service` (src/freebox.py lines 80-98).  The
argument is `none` when `zeroconf.get_service_info` returned `None` (the
callback then stores nothing); otherwise the service name, type, server,
port, dotted address and every TXT pair are stored in the parent Freebox
properties dict. -/
def add_service (props : PyDict) (info : Option ServiceInfo) : PyDict :=
  match info with
  | none => props
  | some i =>
      let ps := dset props "name" (.str i.name)
      let ps := dset ps "type" (.str i.type)
      let ps := dset ps "server" (.str i.server)
      let ps := dset ps "port" (.int i.port)
      let ps := dset ps "address"
        (.str (toString i.addr0 ++ "." ++ toString i.addr1
               ++ "." ++ toString i.addr2 ++ "." ++ toString i.addr3))
      txtFold i.txt ps

/-- The observable steps of `Freebox.__init__` (src/freebox.py lines
100-121): open the zeroconf socket, start the service browser, sleep for
the discovery window, cancel the browser, close the zeroconf socket, and
finally either raise or return. -/
inductive DiscEvent where
  | zcOpen
  | browserStart
  | sleepWait
  | browserCancel
  | zcClose
  | raised (msg : String)
  | returnedSelf
deriving DecidableEq, Repr

/-- Python exception classes relevant to the embedded control flow:
`FreeboxError` (src/freeerrors.py lines 17-27, the discovery
not-found error, which the spec names NotFoundError), the built-in
`AttributeError`, and the built-in KeyError/TypeError raised when a dict
key is missing or a non-string is concatenated. -/
inductive PyError where
  | freeboxError (msg : String)
  | attributeError (msg : String)
  | typeOrKeyError
deriving DecidableEq, Repr

/-- The message of the `FreeboxError` raised at src/freebox.py lines
119-121. -/
def notFoundMsg : String := "Fatal: Unable to find a Freebox on the local network!"

instance {ε α : Type} [DecidableEq ε] [DecidableEq α] :
    DecidableEq (Except ε α) := fun a b =>
  match a, b with
  | .error e1, .error e2 =>
      if h : e1 = e2 then isTrue (by rw [h])
      else isFalse (fun hc => h (by injection hc))
  | .error _, .ok _ => isFalse (fun hc => Except.noConfusion hc)
  | .ok _, .error _ => isFalse (fun hc => Except.noConfusion hc)
  | .ok a1, .ok a2 =>
      if h : a1 = a2 then isTrue (by rw [h])
      else isFalse (fun hc => h (by injection hc))

/-- Result of running a constructor: the ordered trace of observable
steps, and either the raised error or the final properties dict of the
returned instance. -/
structure InitOutcome where
  trace : List DiscEvent
  result : Except PyError PyDict
deriving DecidableEq, Repr

/-- Embeds `Freebox.__init__` (src/freebox.py lines 100-121).  The input
is the sequence of `add_service` callbacks delivered by the browser thread
during the 2-second sleep window, each carrying the `get_service_info`
result (`none` when resolution failed).  The properties dict starts empty,
the callbacks fold over it, the browser is cancelled and zeroconf closed,
and then `FreeboxError` is raised iff the dict is still empty. -/
def freebox_init_run (events : List (Option ServiceInfo)) : InitOutcome :=
  let props := events.foldl add_service []
  if props.isEmpty then
    ⟨[.zcOpen, .browserStart, .sleepWait, .browserCancel, .zcClose,
      .raised notFoundMsg],
     .error (.freeboxError notFoundMsg)⟩
  else
    ⟨[.zcOpen, .browserStart, .sleepWait, .browserCancel, .zcClose,
      .returnedSelf],
     .ok props⟩

/-- The value (raised error or properties dict) produced by
`Freebox.__init__` in src/freebox.py. -/
def freebox_init (events : List (Option ServiceInfo)) : Except PyError PyDict :=
  (freebox_init_run events).result

/-- The member names defined in the body of `class Freebox` in
src/freebox.py: the `_TYPE` constant, the nested `MDNSListener` class and
the methods/properties. -/
def freeboxPyMembers : List String :=
  ["_TYPE", "MDNSListener", "__init__", "_full_api_url", "register",
   "get_metrics", "push_metrics", "print_metrics", "properties"]

/-- The member names defined in the body of `class Freebox` in src/fbx.py
(lines 26-141): unlike src/freebox.py, this class body contains no nested
`MDNSListener` class. -/
def fbxFreeboxMembers : List String :=
  ["_TYPE", "__init__", "_full_api_url", "register",
   "get_metrics", "push_metrics", "print_metrics", "properties"]

/-- The message of the `AttributeError` Python raises when
`Freebox.MDNSListener` is looked up on the src/fbx.py class. -/
def attributeErrorMsg : String :=
  "type object Freebox has no attribute MDNSListener"

/-- Embeds `Freebox.__init__` of the src/fbx.py variant (lines 65-86).
Its first statement, `self._mdns_listener = Freebox.MDNSListener(self)`,
performs a class-attribute lookup of `MDNSListener`; when the attribute is
absent from the class an `AttributeError` is raised there, before the
`Zeroconf()` call, so no discovery step is ever reached.  When the
attribute existed the remaining body is statement-for-statement the one
embedded by `freebox_init_run`. -/
def fbx_init_run (events : List (Option ServiceInfo)) : InitOutcome :=
  if fbxFreeboxMembers.contains "MDNSListener" then
    freebox_init_run events
  else
    ⟨[.raised attributeErrorMsg], .error (.attributeError attributeErrorMsg)⟩

/-- Outcome of running `main` in src/fbxmetrics.py. -/
inductive MainOutcome where
  | exited (code : Nat)
  | uncaught (e : PyError)
  | reachedRegister
  | reachedGetMetrics
deriving DecidableEq, Repr

/-- Embeds `main` in src/fbxmetrics.py (lines 41-75): construct a
`Freebox` from the `fbx` module inside `try/except FreeboxError`; a
`FreeboxError` prints and exits with code 1, while any other exception
(such as `AttributeError`) propagates uncaught; on success the run
branches on the register flag into `freebox.register(...)` or
`freebox.get_metrics()` (abstracted here as reaching those calls). -/
def fbxmetrics_main (events : List (Option ServiceInfo))
    (registerFlag : Bool) : MainOutcome :=
  match (fbx_init_run events).result with
  | .error (.freeboxError _) => .exited 1
  | .error e => .uncaught e
  | .ok _ => if registerFlag then .reachedRegister else .reachedGetMetrics

/-- The effects performed by a call to `Freebox.register`: the HTTP POST
requests issued (url and ordered JSON body fields), the polling GET
requests issued, and the files written. -/
structure RegisterEffects where
  posts : List (String × List (String × String))
  polls : List String
  fileWrites : List String
deriving DecidableEq, Repr

/-- The value returned by `Freebox.register` together with its effects.
`result` is the (appToken, trackId) pair when one is returned; the Python
function body ends in a bare `return`, i.e. returns `None`. -/
structure RegisterOutcome where
  result : Option (String × Nat)
  effects : RegisterEffects
deriving DecidableEq, Repr

/-- Embeds the Python expression `app_name.lower()` for the ASCII
application names used by this program. -/
def pyLower (s : String) : String := String.mk (s.data.map Char.toLower)

/-- Embeds `Freebox.register` (src/freebox.py lines 142-162; the copy in
src/fbx.py lines 107-127 is textually identical).  `device_name` stands
for the value of `platform.node()`, an environment input.  The body
builds the authorize URL (a missing properties key raises there), builds
the JSON payload dict in source order, computes an unused `ssl_dir`
string, performs exactly one POST, and returns `None`: no polling GET is
ever issued, no file is written, and no token is returned. -/
def register (props : PyDict) (app_name app_version device_name : String) :
    Except PyError RegisterOutcome :=
  match full_api_url props "/login/authorize/" with
  | none => .error .typeOrKeyError
  | some url =>
      .ok ⟨none,
        ⟨[(url,
           [("app_id", "fr.freebox." ++ pyLower app_name),
            ("app_name", app_name),
            ("app_version", app_version),
            ("device_name", device_name)])],
         [], []⟩⟩

/-- A concrete discovered properties dict used by the register witnesses. -/
def regProps0 : PyDict :=
  [("api_domain", .str "mafreebox.freeboxos.fr"),
   ("api_base_url", .str "/api/"),
   ("api_version", .str "8.1"),
   ("device_type", .str "FreeboxServer1,2"),
   ("uid", .str "23b86ec8091f3846c0a9de29d1910313")]

/-- Embeds `Freebox.get_metrics` (src/freebox.py lines 164-165): the body
is a single `pass`, so the call returns Python `None` and issues no
endpoint request.  The `endpoints` argument stands for the per-endpoint
fetch results the specified collector would consult (success carrying a
sample, error carrying the failure); the code ignores them entirely, so
the result type `Option (List α × Nat)` — the samples plus a
partial-failure count the specification requires — is always `none`. -/
def get_metrics (α : Type) (_props : PyDict)
    (_endpoints : List (Except String α)) : Option (List α × Nat) :=
  none

/-! ### Session sub-protocol

The repository contains no session-open code at all: no `/login/` GET, no
HMAC computation and no `/login/session/` POST appear in any source file.
The definitions below are therefore modelled from the specification
(section 4.3): `password = HMAC-SHA1(key = appToken, message = challenge)`,
hex-encoded, sent in the POST body `{app_id, password}`.  HMAC and SHA-1
follow RFC 2104 and FIPS 180, over byte lists with 32-bit words as
naturals reduced modulo 2^32. -/

/-- Reduction to a 32-bit word. -/
def w32 (n : Nat) : Nat := n % 4294967296

/-- Left rotation of a 32-bit word. -/
def rotl (x s : Nat) : Nat := w32 ((x <<< s) ||| (x >>> (32 - s)))

/-- Bitwise complement of a 32-bit word. -/
def bnot32 (x : Nat) : Nat := 4294967295 ^^^ x

/-- The SHA-1 round function for round `t`. -/
def sha1F (t b c d : Nat) : Nat :=
  if t < 20 then (b &&& c) ||| (bnot32 b &&& d)
  else if t < 40 then b ^^^ c ^^^ d
  else if t < 60 then (b &&& c) ||| (b &&& d) ||| (c &&& d)
  else b ^^^ c ^^^ d

/-- The SHA-1 round constant for round `t`. -/
def sha1K (t : Nat) : Nat :=
  if t < 20 then 0x5A827999
  else if t < 40 then 0x6ED9EBA1
  else if t < 60 then 0x8F1BBCDC
  else 0xCA62C1D6

/-- Big-endian packing of bytes into 32-bit words. -/
def bytesToWords : List Nat → List Nat
  | b0 :: b1 :: b2 :: b3 :: rest =>
      (((b0 * 256 + b1) * 256 + b2) * 256 + b3) :: bytesToWords rest
  | _ => []

/-- Big-endian bytes of a 32-bit word. -/
def wordBytes (w : Nat) : List Nat :=
  [(w >>> 24) &&& 255, (w >>> 16) &&& 255, (w >>> 8) &&& 255, w &&& 255]

/-- Message-schedule extension, on the reversed schedule (newest word
first): each fuel step prepends
`rotl (W[t-3] xor W[t-8] xor W[t-14] xor W[t-16]) 1`. -/
def sha1ExtendRev : Nat → List Nat → List Nat
  | 0, ws => ws
  | fuel + 1, ws =>
      sha1ExtendRev fuel
        (rotl (ws.getD 2 0 ^^^ ws.getD 7 0 ^^^ ws.getD 13 0 ^^^ ws.getD 15 0)
            1 :: ws)

/-- The 80-word message schedule of a 64-byte block. -/
def sha1Schedule (block : List Nat) : List Nat :=
  (sha1ExtendRev 64 (bytesToWords block).reverse).reverse

/-- The five SHA-1 working registers. -/
structure Sha1State where
  a : Nat
  b : Nat
  c : Nat
  d : Nat
  e : Nat
deriving DecidableEq, Repr

/-- One SHA-1 compression round, carrying the round index. -/
def sha1Round (st : Sha1State × Nat) (w : Nat) : Sha1State × Nat :=
  let s := st.1
  let t := st.2
  (⟨w32 (rotl s.a 5 + sha1F t s.b s.c s.d + s.e + sha1K t + w),
    s.a, rotl s.b 30, s.c, s.d⟩, t + 1)

/-- Process one 64-byte block: run the 80 rounds over the schedule and
add the result into the chaining state. -/
def sha1Block (h : Sha1State) (block : List Nat) : Sha1State :=
  let f := ((sha1Schedule block).foldl sha1Round (h, 0)).1
  ⟨w32 (h.a + f.a), w32 (h.b + f.b), w32 (h.c + f.c),
   w32 (h.d + f.d), w32 (h.e + f.e)⟩

/-- SHA-1 padding: append 0x80, zeros to 56 mod 64, then the 64-bit
big-endian bit length. -/
def sha1Pad (msg : List Nat) : List Nat :=
  let len := msg.length
  let bitLen := len * 8
  msg ++ [128] ++ List.replicate ((64 + 55 - len % 64) % 64) 0
    ++ [(bitLen >>> 56) &&& 255, (bitLen >>> 48) &&& 255,
        (bitLen >>> 40) &&& 255, (bitLen >>> 32) &&& 255,
        (bitLen >>> 24) &&& 255, (bitLen >>> 16) &&& 255,
        (bitLen >>> 8) &&& 255, bitLen &&& 255]

/-- Split a byte list into 64-byte blocks; the fuel argument (any bound
on the number of blocks, the callers pass the total length) keeps the
recursion structural. -/
def chunk64 : Nat → List Nat → List (List Nat)
  | 0, _ => []
  | _, [] => []
  | fuel + 1, l => l.take 64 :: chunk64 fuel (l.drop 64)

/-- The SHA-1 initialization vector. -/
def sha1Init : Sha1State :=
  ⟨0x67452301, 0xEFCDAB89, 0x98BADCFE, 0x10325476, 0xC3D2E1F0⟩

/-- SHA-1 of a byte list, as the 20 digest bytes. -/
def sha1 (msg : List Nat) : List Nat :=
  let padded := sha1Pad msg
  let final := (chunk64 padded.length padded).foldl sha1Block sha1Init
  wordBytes final.a ++ wordBytes final.b ++ wordBytes final.c
    ++ wordBytes final.d ++ wordBytes final.e

/-- HMAC-SHA1 (RFC 2104): keys longer than the 64-byte block are hashed,
the key is zero-padded to 64 bytes, and the digest is
`H((K xor opad) || H((K xor ipad) || message))` with ipad 0x36 and
opad 0x5C. -/
def hmacSha1 (key msg : List Nat) : List Nat :=
  let key2 := if 64 < key.length then sha1 key else key
  let kpad := key2 ++ List.replicate (64 - key2.length) 0
  sha1 ((kpad.map (fun b => b ^^^ 92))
    ++ sha1 ((kpad.map (fun b => b ^^^ 54)) ++ msg))

/-- Lower-case hex character of a value below 16. -/
def hexDigit (n : Nat) : Char :=
  if n < 10 then Char.ofNat (48 + n) else Char.ofNat (87 + n)

/-- Two lower-case hex characters of a byte. -/
def hexByte (b : Nat) : List Char := [hexDigit (b / 16), hexDigit (b % 16)]

/-- Lower-case hex encoding of a byte list. -/
def hexOfBytes (bs : List Nat) : String :=
  String.mk ((bs.map hexByte).flatten)

/-- The bytes of an ASCII string (the UTF-8 encoding of ASCII text is its
code-point sequence). -/
def strBytes (s : String) : List Nat := s.data.map Char.toNat

/-- Modelled from the spec: the session-open password of section 4.3 —
the repository has no session code — is the hex-encoded HMAC-SHA1 digest
with key appToken and message challenge. -/
def openSessionPassword (appToken challenge : String) : String :=
  hexOfBytes (hmacSha1 (strBytes appToken) (strBytes challenge))

/-- Modelled from the spec: the body `{app_id, password}` of the POST to
{baseUrl}/login/session/ that opens the session after the challenge was
fetched from {baseUrl}/login/. -/
def openSessionRequest (appId appToken challenge : String) :
    List (String × String) :=
  [("app_id", appId), ("password", openSessionPassword appToken challenge)]

/-! ### Theorems -/

theorem txtFold_cons_ne_nil (txt : List (String × String)) (k : String)
    (v : PyVal) (ps : PyDict) : txtFold txt ((k, v) :: ps) ≠ [] := by
  induction txt generalizing k v ps with
  | nil => simp [txtFold]
  | cons kv rest ih =>
      simpa [txtFold, dset, List.foldl] using ih kv.1 (.str kv.2) ((k, v) :: ps)

theorem add_service_some_ne_nil (props : PyDict) (i : ServiceInfo) :
    add_service props (some i) ≠ [] := by
  unfold add_service dset
  exact txtFold_cons_ne_nil i.txt _ _ _

theorem foldl_add_service_eq_nil (events : List (Option ServiceInfo))
    (acc : PyDict) :
    events.foldl add_service acc = []
      ↔ acc = [] ∧ events.all (fun o => o.isNone) = true := by
  induction events generalizing acc with
  | nil => simp
  | cons o es ih =>
      cases o with
      | none => simp [List.foldl, add_service, ih]
      | some i =>
          simp [List.foldl, ih, add_service_some_ne_nil]

theorem full_api_url_lookup_eq (props : PyDict) (p d b v : String)
    (hd : dlookup props "api_domain" = some (.str d))
    (hb : dlookup props "api_base_url" = some (.str b))
    (hv : dlookup props "api_version" = some (.str v)) :
    full_api_url props p
      = some ("https://" ++ d ++ b ++ "v" ++ pyMajor v ++ p) := by
  unfold full_api_url
  rw [hd, hb, hv]

/-- C1: for every descriptor whose properties mapping contains the keys
api_domain, api_base_url and api_version, the fully-qualified API URL built
for a relative path p equals
"https://" ++ api_domain ++ api_base_url ++ "v" ++ (the substring of
api_version before the first period) ++ p; in particular apiVersion "8.1"
yields the version segment "v8", and the result is a deterministic function
of those three keys and p. -/
theorem full_api_url_builds_expected_url (props : PyDict) (p d b v : String)
    (hd : dlookup props "api_domain" = some (.str d))
    (hb : dlookup props "api_base_url" = some (.str b))
    (hv : dlookup props "api_version" = some (.str v)) :
    full_api_url props p
      = some ("https://" ++ d ++ b ++ "v" ++ pyMajor v ++ p)
    ∧ pyMajor "8.1" = "8" :=
  ⟨full_api_url_lookup_eq props p d b v hd hb hv, by decide⟩

/-- Witness for C1 at a concrete properties dict, showing the version
segment v8 produced from apiVersion "8.1". -/
theorem full_api_url_builds_expected_url_witness :
    full_api_url
        [("api_domain", .str "mafreebox.freeboxos.fr"),
         ("api_base_url", .str "/api/"),
         ("api_version", .str "8.1")]
        "/login/authorize/"
      = some "https://mafreebox.freeboxos.fr/api/v8/login/authorize/" := by
  have h := full_api_url_builds_expected_url
    [("api_domain", .str "mafreebox.freeboxos.fr"),
     ("api_base_url", .str "/api/"),
     ("api_version", .str "8.1")]
    "/login/authorize/" "mafreebox.freeboxos.fr" "/api/" "8.1"
    (by decide) (by decide) (by decide)
  rw [h.1]
  decide

/-- C2 counterexample: a service record that resolves but carries not a
single TXT key.  `Freebox.__init__` nevertheless returns an instance
(the listener stored the name/type/server/port/address entries, so the
dict is nonempty) whose properties lack every one of the five required
TXT keys (source-level names api_version, api_base_url, api_domain,
device_type, uid) — construction succeeded although every required key is
missing, contradicting the claim as stated. -/
theorem descriptor_validation_counterexample :
    freebox_init [some ⟨"Freebox-Server._fbx-api._tcp.local.",
        "_fbx-api._tcp.local.", "Freebox-Server.local.", 80,
        192, 168, 1, 254, []⟩]
      = .ok (add_service [] (some ⟨"Freebox-Server._fbx-api._tcp.local.",
          "_fbx-api._tcp.local.", "Freebox-Server.local.", 80,
          192, 168, 1, 254, []⟩))
    ∧ dlookup (add_service [] (some ⟨"Freebox-Server._fbx-api._tcp.local.",
          "_fbx-api._tcp.local.", "Freebox-Server.local.", 80,
          192, 168, 1, 254, []⟩)) "api_version" = none
    ∧ dlookup (add_service [] (some ⟨"Freebox-Server._fbx-api._tcp.local.",
          "_fbx-api._tcp.local.", "Freebox-Server.local.", 80,
          192, 168, 1, 254, []⟩)) "api_base_url" = none
    ∧ dlookup (add_service [] (some ⟨"Freebox-Server._fbx-api._tcp.local.",
          "_fbx-api._tcp.local.", "Freebox-Server.local.", 80,
          192, 168, 1, 254, []⟩)) "api_domain" = none
    ∧ dlookup (add_service [] (some ⟨"Freebox-Server._fbx-api._tcp.local.",
          "_fbx-api._tcp.local.", "Freebox-Server.local.", 80,
          192, 168, 1, 254, []⟩)) "device_type" = none
    ∧ dlookup (add_service [] (some ⟨"Freebox-Server._fbx-api._tcp.local.",
          "_fbx-api._tcp.local.", "Freebox-Server.local.", 80,
          192, 168, 1, 254, []⟩)) "uid" = none := by
  decide

/-- C2 (amended): descriptor construction performs no validation of the
required TXT keys and never parses apiVersion — it succeeds exactly when
at least one service record resolves (which makes the properties mapping
nonempty), even when every required key is absent. -/
theorem freebox_construction_succeeds_iff_any_record
    (events : List (Option ServiceInfo)) :
    (∃ props, freebox_init events = .ok props)
      ↔ events.any (fun o => o.isSome) = true := by
  unfold freebox_init freebox_init_run
  by_cases h : events.foldl add_service [] = []
  · simp only [h, List.isEmpty_nil, if_true]
    constructor
    · rintro ⟨props, hp⟩
      exact absurd hp (by simp)
    · intro hany
      have hall := (foldl_add_service_eq_nil events []).mp h
      rcases List.any_eq_true.mp hany with ⟨o, ho, hsome⟩
      have := List.all_eq_true.mp hall.2 o ho
      cases o with
      | none => exact absurd hsome (by simp)
      | some i => exact absurd this (by simp)
  · have hne : (events.foldl add_service []).isEmpty = false := by
      simpa [List.isEmpty_iff] using h
    simp only [hne, Bool.false_eq_true, if_false]
    constructor
    · intro _
      by_contra hnone
      have hall : events.all (fun o => o.isNone) = true := by
        rw [List.all_eq_true]
        intro o ho
        cases o with
        | none => simp
        | some i =>
            exact absurd (List.any_eq_true.mpr ⟨some i, ho, by simp⟩) hnone
      exact h ((foldl_add_service_eq_nil events []).mpr ⟨rfl, hall⟩)
    · intro _
      exact ⟨events.foldl add_service [], rfl⟩

/-- Witness for the amended C2 theorem at a concrete event list: one
resolved record (with no TXT keys at all) suffices for construction to
succeed. -/
theorem freebox_construction_succeeds_iff_any_record_witness :
    ∃ props, freebox_init [some ⟨"n", "t", "s", 80, 1, 2, 3, 4, []⟩]
      = .ok props :=
  (freebox_construction_succeeds_iff_any_record
      [some ⟨"n", "t", "s", 80, 1, 2, 3, 4, []⟩]).mpr (by decide)

/-- C3 (code evaluation): whenever `register` completes normally — in
particular whenever the initial authorize POST is issued — it has issued
zero polling GET requests and returns `None` rather than an app token:
the poll-until-terminal-status loop with its 60-attempt ceiling and its
AuthError approval-timed-out failure does not exist in the code. -/
theorem register_never_polls (props : PyDict)
    (app_name app_version device_name : String) (out : RegisterOutcome)
    (h : register props app_name app_version device_name = .ok out) :
    out.effects.polls = [] ∧ out.result = none := by
  unfold register at h
  cases hu : full_api_url props "/login/authorize/" with
  | none => rw [hu] at h; exact absurd h (by simp)
  | some url =>
      rw [hu] at h
      have : out = ⟨none,
        ⟨[(url,
           [("app_id", "fr.freebox." ++ pyLower app_name),
            ("app_name", app_name),
            ("app_version", app_version),
            ("device_name", device_name)])],
         [], []⟩⟩ := by
        injection h with h2
        exact h2.symm
      rw [this]
      exact ⟨rfl, rfl⟩

/-- Witness for C3 at a concrete run in which the authorize POST
succeeds: the completed call made no polling request and produced no
token. -/
theorem register_never_polls_witness :
    (⟨none,
       ⟨[("https://mafreebox.freeboxos.fr/api/v8/login/authorize/",
          [("app_id", "fr.freebox.freeprobe"),
           ("app_name", "FreeProbe"),
           ("app_version", "0.0.1"),
           ("device_name", "testhost")])],
        [], []⟩⟩ : RegisterOutcome).effects.polls = []
    ∧ (⟨none,
        ⟨[("https://mafreebox.freeboxos.fr/api/v8/login/authorize/",
           [("app_id", "fr.freebox.freeprobe"),
            ("app_name", "FreeProbe"),
            ("app_version", "0.0.1"),
            ("device_name", "testhost")])],
         [], []⟩⟩ : RegisterOutcome).result = none :=
  register_never_polls regProps0 "FreeProbe" "0.0.1" "testhost" _ (by decide)

/-- C4 (code evaluation): whenever `register` completes normally it has
written no file at all — in particular no owner-only credential store —
and returns `None` rather than the granted (appToken, trackId) pair; the
computed `ssl_dir` string is never used. -/
theorem register_never_stores_token (props : PyDict)
    (app_name app_version device_name : String) (out : RegisterOutcome)
    (h : register props app_name app_version device_name = .ok out) :
    out.effects.fileWrites = [] ∧ out.result = none := by
  unfold register at h
  cases hu : full_api_url props "/login/authorize/" with
  | none => rw [hu] at h; exact absurd h (by simp)
  | some url =>
      rw [hu] at h
      have : out = ⟨none,
        ⟨[(url,
           [("app_id", "fr.freebox." ++ pyLower app_name),
            ("app_name", app_name),
            ("app_version", app_version),
            ("device_name", device_name)])],
         [], []⟩⟩ := by
        injection h with h2
        exact h2.symm
      rw [this]
      exact ⟨rfl, rfl⟩

/-- Witness for C4 at a concrete successful run: no file write occurred
and no token pair was returned. -/
theorem register_never_stores_token_witness :
    (⟨none,
       ⟨[("https://mafreebox.freeboxos.fr/api/v8/login/authorize/",
          [("app_id", "fr.freebox.freeprobe"),
           ("app_name", "FreeProbe"),
           ("app_version", "0.0.1"),
           ("device_name", "host2")])],
        [], []⟩⟩ : RegisterOutcome).effects.fileWrites = []
    ∧ (⟨none,
        ⟨[("https://mafreebox.freeboxos.fr/api/v8/login/authorize/",
           [("app_id", "fr.freebox.freeprobe"),
            ("app_name", "FreeProbe"),
            ("app_version", "0.0.1"),
            ("device_name", "host2")])],
         [], []⟩⟩ : RegisterOutcome).result = none :=
  register_never_stores_token regProps0 "FreeProbe" "0.0.1" "host2" _
    (by decide)

/-- C5: for every app name and version (and discovered base-URL
properties), the registration request is a single POST to
{baseUrl}/login/authorize/ whose JSON body holds exactly the fields
app_id, app_name, app_version and device_name in that order, with app_id
equal to "fr.freebox." followed by the lowercased app name. -/
theorem register_post_request_shape (props : PyDict)
    (app_name app_version device_name d b v : String)
    (hd : dlookup props "api_domain" = some (.str d))
    (hb : dlookup props "api_base_url" = some (.str b))
    (hv : dlookup props "api_version" = some (.str v)) :
    register props app_name app_version device_name
      = .ok ⟨none,
          ⟨[("https://" ++ d ++ b ++ "v" ++ pyMajor v ++ "/login/authorize/",
             [("app_id", "fr.freebox." ++ pyLower app_name),
              ("app_name", app_name),
              ("app_version", app_version),
              ("device_name", device_name)])],
           [], []⟩⟩ := by
  unfold register
  rw [full_api_url_lookup_eq props "/login/authorize/" d b v hd hb hv]

/-- Witness for C5 at a concrete properties dict and application
identity. -/
theorem register_post_request_shape_witness :
    register regProps0 "FreeProbe" "0.0.1" "testhost"
      = .ok ⟨none,
          ⟨[("https://mafreebox.freeboxos.fr/api/v8/login/authorize/",
             [("app_id", "fr.freebox.freeprobe"),
              ("app_name", "FreeProbe"),
              ("app_version", "0.0.1"),
              ("device_name", "testhost")])],
           [], []⟩⟩ := by
  have h := register_post_request_shape regProps0 "FreeProbe" "0.0.1"
    "testhost" "mafreebox.freeboxos.fr" "/api/" "8.1"
    (by decide) (by decide) (by decide)
  rw [h]
  decide

/-- C6: discovery raises the not-found error (`FreeboxError`, which is
what the spec names NotFoundError) exactly when no service record
resolved during the discovery window; when at least one record resolved,
`Freebox.__init__` returns a descriptor and does not raise. -/
theorem discovery_not_found_iff_no_record
    (events : List (Option ServiceInfo)) :
    (freebox_init events = .error (.freeboxError notFoundMsg)
        ↔ events.all (fun o => o.isNone) = true)
    ∧ (events.all (fun o => o.isNone) = false
        → freebox_init events = .ok (events.foldl add_service [])) := by
  unfold freebox_init freebox_init_run
  by_cases h : events.foldl add_service [] = []
  · have hall := (foldl_add_service_eq_nil events []).mp h
    simp [h, hall.2]
  · have hne : (events.foldl add_service []).isEmpty = false := by
      simpa [List.isEmpty_iff] using h
    have hnall : events.all (fun o => o.isNone) = false := by
      by_contra hc
      have : events.all (fun o => o.isNone) = true := by
        cases hx : events.all (fun o => o.isNone) with
        | true => rfl
        | false => exact absurd hx hc
      exact h ((foldl_add_service_eq_nil events []).mpr ⟨rfl, this⟩)
    simp [hne, hnall]

/-- Witness for C6 at concrete inputs: with no resolved record discovery
fails with the not-found error, and with one resolved record it returns a
descriptor. -/
theorem discovery_not_found_iff_no_record_witness :
    freebox_init [none] = .error (.freeboxError notFoundMsg)
    ∧ freebox_init [some ⟨"n", "t", "s", 80, 1, 2, 3, 4, []⟩]
        = .ok ([some (⟨"n", "t", "s", 80, 1, 2, 3, 4, []⟩ : ServiceInfo)].foldl
            add_service []) :=
  ⟨(discovery_not_found_iff_no_record [none]).1.mpr (by decide),
   (discovery_not_found_iff_no_record
      [some ⟨"n", "t", "s", 80, 1, 2, 3, 4, []⟩]).2 (by decide)⟩

/-- C7: on every return path of `Freebox.__init__` — record found, or
timeout with no record — the trace ends with a single terminal step
(return or raise), and both the browser cancellation and the zeroconf
close occur strictly before that terminal step, so no multicast listener
remains open after control returns. -/
theorem discovery_always_releases_resources
    (events : List (Option ServiceInfo)) :
    ∃ pre t, (freebox_init_run events).trace = pre ++ [t]
      ∧ DiscEvent.browserCancel ∈ pre
      ∧ DiscEvent.zcClose ∈ pre
      ∧ (t = .raised notFoundMsg ∨ t = .returnedSelf) := by
  unfold freebox_init_run
  by_cases h : (events.foldl add_service []).isEmpty
  · exact ⟨[.zcOpen, .browserStart, .sleepWait, .browserCancel, .zcClose],
      .raised notFoundMsg, by simp [h], by decide, by decide, Or.inl rfl⟩
  · exact ⟨[.zcOpen, .browserStart, .sleepWait, .browserCancel, .zcClose],
      .returnedSelf, by simp [h], by decide, by decide, Or.inr rfl⟩

/-- Witness for C7 at a concrete event list with no resolved record. -/
theorem discovery_always_releases_resources_witness :
    ∃ pre t, (freebox_init_run []).trace = pre ++ [t]
      ∧ DiscEvent.browserCancel ∈ pre
      ∧ DiscEvent.zcClose ∈ pre
      ∧ (t = .raised notFoundMsg ∨ t = .returnedSelf) :=
  discovery_always_releases_resources []

/-- C8 (code evaluation): `get_metrics` returns `None` for every
properties dict and every endpoint outcome list — it never returns the
samples of the succeeding endpoints nor a partial-failure count; in
particular, for 3 endpoints of which one returns malformed data it does
not return the 2 valid samples with 1 recorded failure. -/
theorem get_metrics_is_a_stub :
    (∀ (α : Type) (props : PyDict) (endpoints : List (Except String α)),
        get_metrics α props endpoints = none)
    ∧ get_metrics String regProps0
        [.ok "sample1", .error "malformed", .ok "sample2"]
        ≠ some (["sample1", "sample2"], 1) :=
  ⟨fun _ _ _ => rfl, by decide⟩

example : hexOfBytes (sha1 (strBytes "abc"))
    = "a9993e364706816aba3e25717850c26c9cd0d89d" := by decide

/-- C9: the password field of the session-open POST body equals the
hex-encoded HMAC-SHA1 digest with key appToken and message challenge, for
every token and challenge; and for appToken "secret" with challenge
"abc123" it equals the standard HMAC-SHA1 reference digest for that
key/message pair. -/
theorem open_session_password_is_hmac_sha1 :
    (∀ appId appToken challenge : String,
        openSessionRequest appId appToken challenge
          = [("app_id", appId),
             ("password",
              hexOfBytes (hmacSha1 (strBytes appToken)
                (strBytes challenge)))])
    ∧ openSessionPassword "secret" "abc123"
        = "8657345ce1d0a7304b31540a34ec4355a86c2b69" :=
  ⟨fun _ _ _ => rfl, by decide⟩

/-- C10: constructing a Freebox via the src/fbx.py variant — the class
src/fbxmetrics.py imports — raises an `AttributeError` before any
discovery step, for every sequence of discovery events: the class member
list of src/fbx.py lacks `MDNSListener` (the src/freebox.py one has it),
the constructor errors with no zeroconf socket ever opened, and the main
script consequently never reaches registration or metric collection. -/
theorem fbx_constructor_always_attribute_error
    (events : List (Option ServiceInfo)) (registerFlag : Bool) :
    fbxFreeboxMembers.contains "MDNSListener" = false
    ∧ freeboxPyMembers.contains "MDNSListener" = true
    ∧ fbx_init_run events
        = ⟨[.raised attributeErrorMsg],
           .error (.attributeError attributeErrorMsg)⟩
    ∧ DiscEvent.zcOpen ∉ (fbx_init_run events).trace
    ∧ fbxmetrics_main events registerFlag
        = .uncaught (.attributeError attributeErrorMsg) := by
  have hmem : fbxFreeboxMembers.contains "MDNSListener" = false := by decide
  refine ⟨hmem, by decide, ?_, ?_, ?_⟩
  · unfold fbx_init_run
    rw [hmem]
    simp
  · unfold fbx_init_run
    rw [hmem]
    simp
  · unfold fbxmetrics_main fbx_init_run
    rw [hmem]
    simp

end Fbxmetrics
